import Mathlib

/-!
Shallow embedding of the credential/token subsystem and the report
notification hand-off of the threat-intelligence backend, together with
proofs of the specification claims about them.

Python `datetime` values are modelled as integer seconds (UTC); machine
randomness (bcrypt salts, uuid4 token ids, issuance timestamps) enters each
definition as an explicit parameter.
-/

namespace ThreatIntel

/-! ## Exception taxonomy

The Python exception classes of `toolkit/api/exceptions/custom_exceptions.py`,
`app/auth/helpers/exceptions.py`, `app/threat/helpers/exceptions.py`, plus the
builtin / library classes the code raises or catches.  `parent` is the direct
superclass as written in the source. -/

inductive ExcClass
  | exception
  | unauthorizedError
  | doesNotExistError
  | duplicateResourceError
  | userDoesNotExistError
  | duplicateUserError
  | invalidUserCredentials
  | internalTokenError
  | threatReportDoesNotExistsError
  | integrityError
  | noResultFound
  | assertionError
  | typeError
  | amqpConnectionError
  | amqpChannelError
  | amqpPublishError
  deriving DecidableEq, Repr

open ExcClass

def ExcClass.parent : ExcClass → Option ExcClass
  | exception => none
  | unauthorizedError => some exception
  | doesNotExistError => some exception
  | duplicateResourceError => some exception
  | userDoesNotExistError => some doesNotExistError
  | duplicateUserError => some duplicateResourceError
  | invalidUserCredentials => some unauthorizedError
  | internalTokenError => some unauthorizedError
  | threatReportDoesNotExistsError => some doesNotExistError
  | integrityError => some exception
  | noResultFound => some exception
  | assertionError => some exception
  | typeError => some exception
  | amqpConnectionError => some exception
  | amqpChannelError => some exception
  | amqpPublishError => some exception

/-- Method-resolution order of an exception class: the class followed by its
superclasses up to `Exception`.  The hierarchy has depth at most 3, so fuel 8
always suffices. -/
def ExcClass.mroAux : Nat → ExcClass → List ExcClass
  | 0, c => [c]
  | n + 1, c =>
      c :: (match c.parent with
            | none => []
            | some p => ExcClass.mroAux n p)

def ExcClass.mro (c : ExcClass) : List ExcClass :=
  ExcClass.mroAux 8 c

/-- `a` is `b` or a (transitive) subclass of `b`, as Python `issubclass`. -/
def ExcClass.isSubclassOf (a b : ExcClass) : Bool :=
  a.mro.contains b

/-- The exception handlers registered in `app/main.py`, as the HTTP status
code each handler responds with (`app/exception_handlers.py`). -/
def handlerStatus : ExcClass → Option Nat
  | unauthorizedError => some 401
  | doesNotExistError => some 404
  | duplicateResourceError => some 409
  | exception => some 500
  | _ => none

/-- Status code an exception of class `c` is surfaced with: the handler of the
first class in the MRO that has one (Starlette handler lookup). -/
def statusCodeFor (c : ExcClass) : Nat :=
  (c.mro.findSome? handlerStatus).getD 500

/-- A raised Python exception: its class and its message. -/
structure Raised where
  cls : ExcClass
  msg : String
  deriving DecidableEq, Repr

/-! ## Messages (`app/auth/helpers/messages.py`, `app/threat/helpers/messages.py`,
`toolkit/api/enums/status.py`) -/

namespace AuthMessages

def SUCCESS_REGISTER_MESSAGE : String := "Registration has been successful"
def INVALID_CREDENTIALS : String := "Invalid email or password"
def TOKEN_EXPIRED : String := "The authentication token has expired"
def INVALID_TOKEN : String := "The authentication token is invalid or malformed"
def AUTHENTICATION_REQUIRED : String :=
  "Authentication is required to access this resource"
def INVALID_AUTH_SCHEME : String := "Authentication scheme must be \x7btoken_type\x7d"
def INTERNAL_TOKEN_ERROR : String :=
  "Internal error generating token. Check the logs for more info."

/-- Substitute `sub` for the first occurrence of `pat` in a character list. -/
def substFirst (pat sub : List Char) : List Char → List Char
  | [] => []
  | c :: rest =>
      if pat.isPrefixOf (c :: rest) then sub ++ (c :: rest).drop pat.length
      else c :: substFirst pat sub rest

/-- Python `str.format(token_type=...)` applied to the one placeholder used in
`AuthMessages.INVALID_AUTH_SCHEME`. -/
def formatTokenType (template tokenType : String) : String :=
  ⟨substFirst ("\x7btoken_type\x7d").data tokenType.data template.data⟩

end AuthMessages

namespace Status

def SUCCESS : String := "success"
def CREATED : String := "created"

end Status

/-! ## Settings (`config/settings/base.py`)

Key material is modelled as an opaque string; `jwt_private_key` is `Option`
because the code asserts it is set before signing. -/

structure Settings where
  jwt_algorithm : String
  jwt_private_key : Option String
  jwt_public_key : String
  jwt_lifetime_minutes : Int
  deriving DecidableEq, Repr

/-! ## User model (`app/auth/models.py`) -/

structure User where
  id : Int
  username : String
  email : String
  hashed_password : String
  is_active : Bool
  deriving DecidableEq, Repr

/-! ## JWT claims (`app/auth/schemas.py`)

`jti` is `str(uuid.uuid4())` at construction; the embedding takes the
generated string as a field set by the caller. -/

structure JwtClaims where
  sub : Int
  aud : List String
  iat : Int
  nbf : Int
  exp : Int
  jti : String
  issue : String := "rental_house_fastapi"
  deriving DecidableEq, Repr

/-- A value appearing in the dict produced by `dataclasses.asdict`. -/
inductive ClaimValue
  | int (n : Int)
  | str (s : String)
  | strList (l : List String)
  | dt (t : Int)
  deriving DecidableEq, Repr

/-- `dataclasses.asdict` on a `JwtClaims` instance: field-order association
list of claim keys to values. -/
def JwtClaims.asdict (c : JwtClaims) : List (String × ClaimValue) :=
  [("sub", ClaimValue.int c.sub),
   ("aud", ClaimValue.strList c.aud),
   ("iat", ClaimValue.dt c.iat),
   ("nbf", ClaimValue.dt c.nbf),
   ("exp", ClaimValue.dt c.exp),
   ("jti", ClaimValue.str c.jti),
   ("issue", ClaimValue.str c.issue)]

/-! ## TokenService (`app/auth/services.py`) -/

def TOKEN_TYPE : String := "Bearer"

/-- `TokenService._add_timedelta`: add `minutes` to a datetime (in seconds). -/
def add_timedelta (dtm minutes : Int) : Int :=
  dtm + minutes * 60

/-- `TokenService._generate_payload`: claims for `user`, issued at `now`
(the value of `datetime.now(timezone.utc)`) with the freshly generated
uuid4 string `jti`. -/
def generate_payload (s : Settings) (user : User) (now : Int) (jti : String) :
    JwtClaims :=
  { sub := user.id
    aud := ["all"]
    iat := now
    nbf := now
    exp := add_timedelta now s.jwt_lifetime_minutes
    jti := jti }

/-- Model of the external PyJWT `jwt.encode` output: a signed token is the
encoded payload together with the key that signed it and the algorithm. -/
structure SignedJwt where
  payload : List (String × ClaimValue)
  key : String
  algorithm : String
  deriving DecidableEq, Repr

/-- The dict `TokenService.grant_token` returns. -/
structure TokenOutput where
  access_token : SignedJwt
  type : String
  deriving DecidableEq, Repr

/-- `TokenService.grant_token`.  `encodeRejects` is the outcome of the external
`jwt.encode` call: `true` when the signing call raises `TypeError` on the
payload.  A missing private key fails the `assert` (an `AssertionError`);
a `TypeError` from `jwt.encode` is caught and re-raised as
`InternalTokenError`. -/
def grant_token (s : Settings) (user : User) (now : Int) (jti : String)
    (encodeRejects : Bool) : Except Raised TokenOutput :=
  match s.jwt_private_key with
  | none => .error ⟨ExcClass.assertionError, "JWT private key is not set."⟩
  | some key =>
      let payload := (generate_payload s user now jti).asdict
      if encodeRejects then
        .error ⟨ExcClass.internalTokenError, AuthMessages.INTERNAL_TOKEN_ERROR⟩
      else
        .ok { access_token := ⟨payload, key, s.jwt_algorithm⟩, type := TOKEN_TYPE }

/-! ## Token verification (`app/auth/security.py`)

`verify_token_dependency` calls `token_service.verify_token`, whose definition
is not part of the source tree; the verifier itself is modelled from the
specification. -/

/-- A bearer token as presented for verification.  The signature/structure
flags are the outcome of the external cryptographic and parsing checks on the
token string. -/
structure PresentedToken where
  claims : JwtClaims
  signatureValid : Bool
  structureValid : Bool
  deriving DecidableEq, Repr

inductive VerifyError
  | tokenExpired
  | tokenInvalid
  deriving DecidableEq, Repr

/-- Modelled from the spec: `TokenService.verify_token` is invoked from
`verify_token_dependency` but is missing from the source tree.  Per §4.2 it
fails with `TokenExpiredError` when `now > expiry`; fails with
`TokenInvalidError` when the signature, issuer, audience, or structural shape
does not match; and succeeds returning the claims otherwise.  Per §8 the
expiry check is independent of signature validity. -/
def verify_token (now : Int) (tok : PresentedToken) :
    Except VerifyError JwtClaims :=
  if now > tok.claims.exp then
    .error .tokenExpired
  else if !(tok.signatureValid && tok.structureValid
            && tok.claims.issue == "rental_house_fastapi"
            && tok.claims.aud.contains "all") then
    .error .tokenInvalid
  else
    .ok tok.claims

/-- Python `str.lower()` (ASCII, as used on auth scheme names). -/
def pyLower (s : String) : String :=
  ⟨s.data.map Char.toLower⟩

/-- The credentials object `HTTPBearer` hands to the dependency. -/
structure HTTPAuthorizationCredentials where
  scheme : String
  credentials : PresentedToken
  deriving DecidableEq, Repr

/-- `verify_token_dependency` (`app/auth/security.py`).  The second component
records whether `token_service.verify_token` was invoked.  A `VerifyError` is
surfaced as the corresponding raised exception with the message of
`AuthMessages` (`TokenExpiredError` / `TokenInvalidError` are modelled as
`UnauthorizedError` conditions, per the spec taxonomy). -/
def verify_token_dependency (now : Int)
    (credentials : Option HTTPAuthorizationCredentials) :
    Except Raised JwtClaims × Bool :=
  match credentials with
  | none =>
      (.error ⟨ExcClass.unauthorizedError, AuthMessages.AUTHENTICATION_REQUIRED⟩,
       false)
  | some cred =>
      if pyLower cred.scheme != pyLower TOKEN_TYPE then
        (.error ⟨ExcClass.unauthorizedError,
                 AuthMessages.formatTokenType AuthMessages.INVALID_AUTH_SCHEME
                   TOKEN_TYPE⟩,
         false)
      else
        match verify_token now cred.credentials with
        | .error .tokenExpired =>
            (.error ⟨ExcClass.unauthorizedError, AuthMessages.TOKEN_EXPIRED⟩, true)
        | .error .tokenInvalid =>
            (.error ⟨ExcClass.unauthorizedError, AuthMessages.INVALID_TOKEN⟩, true)
        | .ok claims => (.ok claims, true)

/-! ## bcrypt model (external library used by `AuthService`)

Model of the external bcrypt primitive: the hash is deterministic in
(salt, password), and the salt is recoverable from the hash (as bcrypt
re-derives it inside `checkpw`).  Model salts contain no `$`. -/

def bcrypt_hashpw (password salt : String) : String :=
  salt ++ "$" ++ password

/-- The salt segment bcrypt recovers from a stored hash. -/
def bcryptSaltOf (hash : String) : String :=
  ⟨hash.data.takeWhile (fun c => c != '$')⟩

def bcrypt_checkpw (password hash : String) : Bool :=
  hash == bcrypt_hashpw password (bcryptSaltOf hash)

/-- `AuthService.hash_password`: bcrypt hash of `password` under the freshly
generated `salt` (the value of `bcrypt.gensalt()`). -/
def hash_password (password salt : String) : String :=
  bcrypt_hashpw password salt

/-- `AuthService.check_password`. -/
def check_password (password hashed_password : String) : Bool :=
  bcrypt_checkpw password hashed_password

/-! ## Auth data access layer (`app/auth/dal.py`)

The relational store is modelled as the list of persisted user rows; ids are
auto-assigned sequentially. -/

structure UserRegisterInput where
  username : String
  email : String
  password : String
  deriving DecidableEq, Repr

structure UserAuthenticateInput where
  email : String
  password : String
  deriving DecidableEq, Repr

abbrev UserDb := List User

/-- Python's `in` operator on strings, on the character lists. -/
def listContainsSub (pat : List Char) : List Char → Bool
  | [] => pat.isEmpty
  | c :: rest => pat.isPrefixOf (c :: rest) || listContainsSub pat rest

/-- Python's `pat in s` for strings. -/
def strContainsSub (pat s : String) : Bool :=
  listContainsSub pat.data s.data

/-- The PostgreSQL error text SQLAlchemy wraps in an `IntegrityError` when the
unique constraint `constraintName` is violated. -/
def pgUniqueViolation (constraintName : String) : String :=
  "duplicate key value violates unique constraint \"" ++ constraintName ++ "\""

/-- `AuthDataAccessLayer.handle_integrity_error`: classify the stringified
`IntegrityError` and raise `DuplicateUserError` for the two known unique
constraints of `auth__user`; re-raise the original error otherwise. -/
def handle_integrity_error (exc : Raised) : Raised :=
  if strContainsSub "duplicate key value violates unique constraint" exc.msg then
    if strContainsSub "auth__user_username_key" exc.msg then
      ⟨ExcClass.duplicateUserError, "User with this username already exists"⟩
    else if strContainsSub "auth__user_email_key" exc.msg then
      ⟨ExcClass.duplicateUserError, "User with this email already exists"⟩
    else exc
  else exc

/-- Next auto-assigned primary key. -/
def nextId (db : UserDb) : Int :=
  (db.map User.id).foldl max 0 + 1

/-- `AuthDataAccessLayer.create_user`: unique-constrained insert returning the
persisted row, with `IntegrityError` classified by
`handle_integrity_error`. -/
def create_user (db : UserDb) (user_input : UserRegisterInput)
    (hashed_password : String) : Except Raised (User × UserDb) :=
  if db.any (fun u => u.username == user_input.username) then
    .error (handle_integrity_error
      ⟨ExcClass.integrityError, pgUniqueViolation "auth__user_username_key"⟩)
  else if db.any (fun u => u.email == user_input.email) then
    .error (handle_integrity_error
      ⟨ExcClass.integrityError, pgUniqueViolation "auth__user_email_key"⟩)
  else
    let user : User :=
      { id := nextId db
        username := user_input.username
        email := user_input.email
        hashed_password := hashed_password
        is_active := true }
    .ok (user, db ++ [user])

/-- `AuthDataAccessLayer.get_user_by_email`: select the active user with the
given email; `scalar_one` on an empty result raises `NoResultFound`, handled
as `UserDoesNotExistError`. -/
def get_user_by_email (db : UserDb) (email : String) : Except Raised User :=
  match db.filter (fun u => u.email == email && u.is_active) with
  | [u] => .ok u
  | [] => .error ⟨ExcClass.userDoesNotExistError, "User does not exists."⟩
  | _ => .error ⟨ExcClass.noResultFound, "Multiple rows were found"⟩

/-! ## AuthService (`app/auth/services.py`) -/

def HTTP_STATUS_201 : String :=
  "https://developer.mozilla.org/en-US/docs/Web/HTTP/Status/201"

/-- The response dict the services return on success. -/
structure ApiResult (α : Type) where
  status : String
  message : String
  data : α
  documentationLink : String
  deriving DecidableEq, Repr

/-- `AuthService.register`: hash the password (bcrypt, with the freshly
generated `salt`) and insert the user; duplicate classification happens in the
data access layer. -/
def register (db : UserDb) (user_input : UserRegisterInput) (salt : String) :
    Except Raised (ApiResult User × UserDb) := do
  let hashed_password := hash_password user_input.password salt
  let (user, db') ← create_user db user_input hashed_password
  return ({ status := Status.CREATED
            message := AuthMessages.SUCCESS_REGISTER_MESSAGE
            data := user
            documentationLink := HTTP_STATUS_201 }, db')

/-- `AuthService.authenticate`: look up the active user by email (a
`UserDoesNotExistError` becomes `InvalidUserCredentials`), verify the
password, and grant a token.  `now`, `jti` and `encodeRejects` are the
issuance-time effects of `TokenService.grant_token`. -/
def authenticate (s : Settings) (db : UserDb)
    (user_input : UserAuthenticateInput) (now : Int) (jti : String)
    (encodeRejects : Bool) : Except Raised TokenOutput := do
  let user ←
    match get_user_by_email db user_input.email with
    | .error e =>
        if e.cls.isSubclassOf ExcClass.userDoesNotExistError then
          .error ⟨ExcClass.invalidUserCredentials, AuthMessages.INVALID_CREDENTIALS⟩
        else .error e
    | .ok u => .ok u
  let is_password_valid := check_password user_input.password user.hashed_password
  if !is_password_valid then
    .error ⟨ExcClass.invalidUserCredentials, AuthMessages.INVALID_CREDENTIALS⟩
  else
    grant_token s user now jti encodeRejects

/-! ## Threat reports (`app/threat/models.py`, `app/threat/helpers/enums.py`) -/

inductive ThreatType
  | ip | email | domain | file | url | user_agent
  deriving DecidableEq, Repr

/-- `ThreatType.value` (a `StrEnum`). -/
def ThreatType.val : ThreatType → String
  | .ip => "ip"
  | .email => "email"
  | .domain => "domain"
  | .file => "file"
  | .url => "url"
  | .user_agent => "user_agent"

structure ThreatReport where
  id : Int
  indicator_type : ThreatType
  indicator_address : String
  full_name : String
  email : String
  threat_actor : Option String
  industry : Option String
  tactic : Option String
  technique : Option String
  credibility : Int
  attack_logs : Option String
  created_at : Int
  modified_at : Int
  deriving DecidableEq, Repr

/-- A JSON value in the serialized report body. -/
inductive JsonValue
  | num (n : Int)
  | str (s : String)
  | null
  deriving DecidableEq, Repr

/-- `ThreatReport.to_bytes`: the JSON object serialized from the instance's
columns (`__dict__` minus `_sa_instance_state`).  Enum-typed fields are
`StrEnum` members and serialize as their string value; datetimes go through
the `default=serializer` fallback as `str(obj)`, modelled here as the string
of the timestamp. -/
def ThreatReport.to_bytes (r : ThreatReport) : List (String × JsonValue) :=
  [("id", JsonValue.num r.id),
   ("indicator_type", JsonValue.str r.indicator_type.val),
   ("indicator_address", JsonValue.str r.indicator_address),
   ("full_name", JsonValue.str r.full_name),
   ("email", JsonValue.str r.email),
   ("threat_actor", (r.threat_actor.map JsonValue.str).getD JsonValue.null),
   ("industry", (r.industry.map JsonValue.str).getD JsonValue.null),
   ("tactic", (r.tactic.map JsonValue.str).getD JsonValue.null),
   ("technique", (r.technique.map JsonValue.str).getD JsonValue.null),
   ("credibility", JsonValue.num r.credibility),
   ("attack_logs", (r.attack_logs.map JsonValue.str).getD JsonValue.null),
   ("created_at", JsonValue.str (toString r.created_at)),
   ("modified_at", JsonValue.str (toString r.modified_at))]

/-! ## Notification producer (`app/threat/producer.py`, `config/rabbitmq.py`) -/

def THREAT_REPORT_EXCHANGE_NAME : String := "threat_report_exchange"

inductive ExchangeType
  | direct | fanout | topic | headers
  deriving DecidableEq, Repr

inductive DeliveryMode
  | not_persistent | persistent
  deriving DecidableEq, Repr

/-- `ThreatReportProducer._get_new_threat_report_routing_key`. -/
def new_threat_report_routing_key : String := "threat_report.new"

/-- The observable effect of a successful publish: the declared exchange and
the message handed to it. -/
structure PublishedMessage where
  exchangeName : String
  exchangeType : ExchangeType
  durable : Bool
  auto_delete : Bool
  routingKey : String
  body : List (String × JsonValue)
  deliveryMode : DeliveryMode
  deriving DecidableEq, Repr

/-- Which step of the publish sequence the broker environment fails at, and
the exception that step raises (all broker failures are `Exception`
subclasses). -/
inductive BrokerFailure
  | atConnect (e : Raised)
  | atChannel (e : Raised)
  | atDeclareExchange (e : Raised)
  | atPublish (e : Raised)
  deriving DecidableEq, Repr

/-- The broker environment for one publish call: `none` means every step
succeeds. -/
abbrev BrokerEnv := Option BrokerFailure

/-- `ThreatReportProducer.produce_new_threat_report`: open a connection and a
channel, declare the durable direct exchange (via
`AsyncRabbitmqManager.declare_exchange`, whose `durable`/`auto_delete`
defaults are `True`/`False`), and publish the serialized report persistently
under the fixed routing key. -/
def produce_new_threat_report (env : BrokerEnv) (threat_report : ThreatReport) :
    Except Raised PublishedMessage :=
  match env with
  | some (.atConnect e) => .error e
  | some (.atChannel e) => .error e
  | some (.atDeclareExchange e) => .error e
  | some (.atPublish e) => .error e
  | none =>
      .ok { exchangeName := THREAT_REPORT_EXCHANGE_NAME
            exchangeType := ExchangeType.direct
            durable := true
            auto_delete := false
            routingKey := new_threat_report_routing_key
            body := threat_report.to_bytes
            deliveryMode := DeliveryMode.persistent }

/-! ## ThreatReportService (`app/threat/services.py`) -/

def SUCCESSFUL_CREATION : String := "Threat report have been created successfully"

abbrev ReportDb := List ThreatReport

structure ThreatReportInputSchema where
  indicator_type : ThreatType
  indicator_address : String
  full_name : String
  email : String
  threat_actor : Option String
  industry : Option String
  tactic : Option String
  technique : Option String
  credibility : Int
  attack_logs : Option String
  deriving DecidableEq, Repr

/-- Next auto-assigned report primary key. -/
def nextReportId (db : ReportDb) : Int :=
  (db.map ThreatReport.id).foldl max 0 + 1

/-- `ThreatReportDataAccessLayer.create_threat_report`: transactional insert
returning the persisted row (`now` is the row's creation timestamp). -/
def create_threat_report (db : ReportDb) (input : ThreatReportInputSchema)
    (now : Int) : ThreatReport × ReportDb :=
  let r : ThreatReport :=
    { id := nextReportId db
      indicator_type := input.indicator_type
      indicator_address := input.indicator_address
      full_name := input.full_name
      email := input.email
      threat_actor := input.threat_actor
      industry := input.industry
      tactic := input.tactic
      technique := input.technique
      credibility := input.credibility
      attack_logs := input.attack_logs
      created_at := now
      modified_at := now }
  (r, db ++ [r])

/-- `ThreatReportService.create_threat_and_notify_threat_report`: insert the
report, then publish; any `Exception` raised by the producer is caught and
logged.  The result also carries the publish outcome that was swallowed, so
that failure isolation is observable in the model. -/
def create_threat_and_notify_threat_report (db : ReportDb)
    (threat_report_input : ThreatReportInputSchema) (now : Int)
    (env : BrokerEnv) :
    Except Raised (ApiResult ThreatReport × ReportDb × Except Raised PublishedMessage) :=
  let (created_threat_report, db') :=
    create_threat_report db threat_report_input now
  let response : ApiResult ThreatReport :=
    { status := Status.CREATED
      message := SUCCESSFUL_CREATION
      data := created_threat_report
      documentationLink := HTTP_STATUS_201 }
  match produce_new_threat_report env created_threat_report with
  | .error e =>
      if e.cls.isSubclassOf ExcClass.exception then
        .ok (response, db', .error e)
      else
        .error e
  | .ok m => .ok (response, db', .ok m)

/-! ## Helper lemmas -/

/-- Every modelled exception class derives from Python's `Exception`. -/
theorem all_subclass_exception (c : ExcClass) :
    c.isSubclassOf ExcClass.exception = true := by
  cases c <;> rfl

/-! ## Claims -/

/-- C10: in every issued token payload the issuer is stored under the
non-standard claim key `issue` (not the standard `iss`) with the fixed value
`rental_house_fastapi`, and the audience is always the fixed list `["all"]`
regardless of the user; a verifier checking the standard `iss` claim finds no
issuer claim at all. -/
theorem C10_issuer_key_is_issue (s : Settings) (user : User) (now : Int)
    (jti : String) :
    ((generate_payload s user now jti).asdict.lookup "issue"
        = some (ClaimValue.str "rental_house_fastapi"))
    ∧ ((generate_payload s user now jti).asdict.lookup "iss" = none)
    ∧ ((generate_payload s user now jti).asdict.lookup "aud"
        = some (ClaimValue.strList ["all"])) := by
  refine ⟨rfl, rfl, rfl⟩

/-- C3: the payload built by issuance has subject = the user's id,
issued-at = not-before = the issuance time, expiry = issuance time plus the
configured lifetime in minutes, the fixed audience, the fixed issuer string,
and the freshly generated token id; whenever the configured lifetime is
positive, expiry > not-before ≥ issued-at, and the signed token is returned
together with the scheme name literal "Bearer". -/
theorem C3_issued_payload (s : Settings) (user : User) (now : Int)
    (jti key : String) (hkey : s.jwt_private_key = some key)
    (hpos : 0 < s.jwt_lifetime_minutes) :
    (generate_payload s user now jti).sub = user.id
    ∧ (generate_payload s user now jti).iat = now
    ∧ (generate_payload s user now jti).nbf = now
    ∧ (generate_payload s user now jti).exp = now + s.jwt_lifetime_minutes * 60
    ∧ (generate_payload s user now jti).aud = ["all"]
    ∧ (generate_payload s user now jti).issue = "rental_house_fastapi"
    ∧ (generate_payload s user now jti).jti = jti
    ∧ (generate_payload s user now jti).iat ≤ (generate_payload s user now jti).nbf
    ∧ (generate_payload s user now jti).nbf < (generate_payload s user now jti).exp
    ∧ grant_token s user now jti false =
        .ok { access_token :=
                ⟨(generate_payload s user now jti).asdict, key, s.jwt_algorithm⟩
              type := "Bearer" } := by
  refine ⟨rfl, rfl, rfl, rfl, rfl, rfl, rfl, le_refl _, ?_, ?_⟩
  · show now < add_timedelta now s.jwt_lifetime_minutes
    unfold add_timedelta
    omega
  · unfold grant_token
    rw [hkey]
    rfl

/-- Witness for C3 at a concrete configuration, user and issuance time. -/
theorem C3_issued_payload_witness :
    (⟨"RS256", some "key0", "pub0", 15⟩ : Settings).jwt_private_key = some "key0"
    ∧ (0:Int) < (⟨"RS256", some "key0", "pub0", 15⟩ : Settings).jwt_lifetime_minutes
    ∧ (generate_payload ⟨"RS256", some "key0", "pub0", 15⟩
         ⟨7, "alice", "alice@x.com", "h", true⟩ 1000 "id-1").sub = 7 := by
  refine ⟨rfl, by decide, ?_⟩
  exact (C3_issued_payload ⟨"RS256", some "key0", "pub0", 15⟩
    ⟨7, "alice", "alice@x.com", "h", true⟩ 1000 "id-1" "key0" rfl (by decide)).1

/-- C6 (code bug evaluation): when the external signing call rejects the
payload, `grant_token` raises `InternalTokenError`, which subclasses
`UnauthorizedError` and is therefore surfaced by the 401 unauthorized handler
rather than as an internal 500 condition. -/
theorem C6_internal_token_error_is_unauthorized :
    grant_token ⟨"RS256", some "key0", "pub0", 15⟩
        ⟨7, "alice", "alice@x.com", "h", true⟩ 1000 "id-1" true
      = .error ⟨ExcClass.internalTokenError, AuthMessages.INTERNAL_TOKEN_ERROR⟩
    ∧ ExcClass.internalTokenError.isSubclassOf ExcClass.unauthorizedError = true
    ∧ statusCodeFor ExcClass.internalTokenError = 401
    ∧ statusCodeFor ExcClass.internalTokenError ≠ 500 := by
  refine ⟨rfl, rfl, rfl, by decide⟩

/-- C2: `create_threat_and_notify_threat_report` performs the transactional
insert first and, once it succeeds, returns the persisted report with created
status no matter what the notification publisher does: every exception raised
anywhere in the publish sequence is caught and never propagated. -/
theorem C2_publish_failure_isolated (db : ReportDb)
    (input : ThreatReportInputSchema) (now : Int) (env : BrokerEnv) :
    create_threat_and_notify_threat_report db input now env =
      .ok ({ status := Status.CREATED
             message := SUCCESSFUL_CREATION
             data := (create_threat_report db input now).1
             documentationLink := HTTP_STATUS_201 },
           (create_threat_report db input now).2,
           produce_new_threat_report env (create_threat_report db input now).1) := by
  unfold create_threat_and_notify_threat_report
  rcases env with _ | f
  · rfl
  · cases f <;>
      simp [produce_new_threat_report, all_subclass_exception]

/-- C7: a successful publish declares the durable direct exchange
`threat_report_exchange` and sends the message under routing key
`threat_report.new` with persistent delivery, the body being the JSON
encoding of the report's persisted columns with enum fields serialized as
their string value. -/
theorem C7_broker_contract (r : ThreatReport) (env : BrokerEnv)
    (m : PublishedMessage) (h : produce_new_threat_report env r = .ok m) :
    m.exchangeName = "threat_report_exchange"
    ∧ m.exchangeType = ExchangeType.direct
    ∧ m.durable = true
    ∧ m.routingKey = "threat_report.new"
    ∧ m.deliveryMode = DeliveryMode.persistent
    ∧ m.body = r.to_bytes
    ∧ m.body.lookup "indicator_type" = some (JsonValue.str r.indicator_type.val) := by
  rcases env with _ | f
  · rw [produce_new_threat_report] at h
    cases h
    exact ⟨rfl, rfl, rfl, rfl, rfl, rfl, rfl⟩
  · cases f <;> simp [produce_new_threat_report] at h

/-- Witness for C7: a concrete report published in the no-failure broker
environment. -/
theorem C7_broker_contract_witness :
    ∃ m, produce_new_threat_report none
        { id := 1, indicator_type := ThreatType.ip,
          indicator_address := "10.0.0.1", full_name := "A",
          email := "a@x.com", threat_actor := none, industry := none,
          tactic := none, technique := none, credibility := 5,
          attack_logs := none, created_at := 0, modified_at := 0 } = .ok m
      ∧ m.routingKey = "threat_report.new" := by
  refine ⟨_, rfl, ?_⟩
  exact (C7_broker_contract _ none _ rfl).2.2.2.1

/-- C4: authentication with an unknown email and authentication with a wrong
password for an existing active user fail with the identical error class and
identical message (the generic invalid-credentials error), so the caller
cannot tell which half of the credential was wrong. -/
theorem C4_credential_errors_identical (s : Settings) (db : UserDb)
    (input : UserAuthenticateInput) (now : Int) (jti : String)
    (encodeRejects : Bool) :
    ((∀ u ∈ db, ¬(u.email = input.email ∧ u.is_active = true)) →
      authenticate s db input now jti encodeRejects =
        .error ⟨ExcClass.invalidUserCredentials, AuthMessages.INVALID_CREDENTIALS⟩)
    ∧ (∀ u : User, get_user_by_email db input.email = .ok u →
        check_password input.password u.hashed_password = false →
        authenticate s db input now jti encodeRejects =
          .error ⟨ExcClass.invalidUserCredentials,
                  AuthMessages.INVALID_CREDENTIALS⟩) := by
  constructor
  · intro hnone
    have hfil : db.filter (fun u => u.email == input.email && u.is_active) = [] := by
      refine List.filter_eq_nil_iff.mpr ?_
      intro u hu
      have := hnone u hu
      simp only [Bool.and_eq_true, beq_iff_eq] at *
      intro hcontra
      exact this ⟨hcontra.1, hcontra.2⟩
    unfold authenticate get_user_by_email
    rw [hfil]
    rfl
  · intro u hget hpw
    unfold authenticate
    rw [hget]
    show (if !check_password input.password u.hashed_password then _ else _) = _
    rw [hpw]
    rfl

/-- Witness for C4: in a store holding only the user `alice@x.com` with
password hash `s0$pw1`, authenticating as `bob@x.com` (unknown email) and as
`alice@x.com` with password `pw2` (mismatch) both produce exactly the raised
error `InvalidUserCredentials "Invalid email or password"`. -/
theorem C4_credential_errors_identical_witness :
    authenticate ⟨"RS256", some "key0", "pub0", 15⟩
        [⟨1, "alice", "alice@x.com", "s0$pw1", true⟩]
        ⟨"bob@x.com", "pw1"⟩ 0 "id-1" false =
      .error ⟨ExcClass.invalidUserCredentials, AuthMessages.INVALID_CREDENTIALS⟩
    ∧ authenticate ⟨"RS256", some "key0", "pub0", 15⟩
        [⟨1, "alice", "alice@x.com", "s0$pw1", true⟩]
        ⟨"alice@x.com", "pw2"⟩ 0 "id-1" false =
      .error ⟨ExcClass.invalidUserCredentials, AuthMessages.INVALID_CREDENTIALS⟩ := by
  constructor
  · exact (C4_credential_errors_identical ⟨"RS256", some "key0", "pub0", 15⟩
      [⟨1, "alice", "alice@x.com", "s0$pw1", true⟩]
      ⟨"bob@x.com", "pw1"⟩ 0 "id-1" false).1 (by decide)
  · exact (C4_credential_errors_identical ⟨"RS256", some "key0", "pub0", 15⟩
      [⟨1, "alice", "alice@x.com", "s0$pw1", true⟩]
      ⟨"alice@x.com", "pw2"⟩ 0 "id-1" false).2
      ⟨1, "alice", "alice@x.com", "s0$pw1", true⟩ rfl (by decide)

/-- C5: a registration that violates the username unique constraint fails
with `DuplicateUserError` naming the username field; a violation of the email
unique constraint fails with `DuplicateUserError` naming the email field; any
integrity error that is not a uniqueness violation is re-raised unchanged. -/
theorem C5_duplicate_classification (db : UserDb) (input : UserRegisterInput)
    (salt : String) :
    ((∃ u ∈ db, u.username = input.username) →
      register db input salt =
        .error ⟨ExcClass.duplicateUserError,
                "User with this username already exists"⟩)
    ∧ ((∀ u ∈ db, u.username ≠ input.username) →
       (∃ u ∈ db, u.email = input.email) →
      register db input salt =
        .error ⟨ExcClass.duplicateUserError,
                "User with this email already exists"⟩)
    ∧ (∀ e : Raised,
        strContainsSub "duplicate key value violates unique constraint" e.msg
          = false →
        handle_integrity_error e = e) := by
  refine ⟨?_, ?_, ?_⟩
  · rintro ⟨u, hu, huser⟩
    have hany : db.any (fun v => v.username == input.username) = true := by
      rw [List.any_eq_true]
      exact ⟨u, hu, by simp [huser]⟩
    unfold register create_user
    rw [hany]
    rfl
  · intro hnone ⟨u, hu, hemail⟩
    have hanyu : db.any (fun v => v.username == input.username) = false := by
      rw [Bool.eq_false_iff, Ne, List.any_eq_true]
      rintro ⟨v, hv, hcontra⟩
      exact hnone v hv (by simpa using hcontra)
    have hanye : db.any (fun v => v.email == input.email) = true := by
      rw [List.any_eq_true]
      exact ⟨u, hu, by simp [hemail]⟩
    unfold register create_user
    rw [hanyu, hanye]
    rfl
  · intro e hmsg
    unfold handle_integrity_error
    rw [hmsg]
    rfl

/-- Witness for C5: concrete username and email collisions, and a
non-uniqueness integrity error passing through unchanged. -/
theorem C5_duplicate_classification_witness :
    register [⟨1, "alice", "alice@x.com", "h", true⟩]
        ⟨"alice", "new@x.com", "pw"⟩ "s0" =
      .error ⟨ExcClass.duplicateUserError,
              "User with this username already exists"⟩
    ∧ register [⟨1, "alice", "alice@x.com", "h", true⟩]
        ⟨"bob", "alice@x.com", "pw"⟩ "s0" =
      .error ⟨ExcClass.duplicateUserError,
              "User with this email already exists"⟩
    ∧ handle_integrity_error
        ⟨ExcClass.integrityError, "null value in column violates not-null"⟩ =
      ⟨ExcClass.integrityError, "null value in column violates not-null"⟩ := by
  refine ⟨?_, ?_, ?_⟩
  · exact (C5_duplicate_classification [⟨1, "alice", "alice@x.com", "h", true⟩]
      ⟨"alice", "new@x.com", "pw"⟩ "s0").1
      ⟨⟨1, "alice", "alice@x.com", "h", true⟩, by simp, rfl⟩
  · exact (C5_duplicate_classification [⟨1, "alice", "alice@x.com", "h", true⟩]
      ⟨"bob", "alice@x.com", "pw"⟩ "s0").2.1 (by decide)
      ⟨⟨1, "alice", "alice@x.com", "h", true⟩, by simp, rfl⟩
  · exact (C5_duplicate_classification [] ⟨"x", "y", "z"⟩ "s0").2.2
      ⟨ExcClass.integrityError, "null value in column violates not-null"⟩
      (by decide)

/-- `takeWhile` stops exactly at a sentinel following a run of satisfying
characters. -/
theorem takeWhile_append_sentinel (p : Char → Bool) (l₁ l₂ : List Char)
    (c : Char) (h₁ : ∀ a ∈ l₁, p a = true) (hc : p c = false) :
    (l₁ ++ c :: l₂).takeWhile p = l₁ := by
  induction l₁ with
  | nil => simp [hc]
  | cons a t ih =>
      simp only [List.cons_append, List.takeWhile_cons]
      rw [h₁ a (List.mem_cons_self a t)]
      simp only [if_true]
      rw [ih (fun x hx => h₁ x (List.mem_cons_of_mem a hx))]

/-- Verification succeeds on the hash of the same password, for any
`$`-free salt. -/
theorem bcrypt_roundtrip (p saltp : String) (hs : ∀ c ∈ saltp.data, c ≠ '$') :
    bcrypt_checkpw p (bcrypt_hashpw p saltp) = true := by
  unfold bcrypt_checkpw bcrypt_hashpw bcryptSaltOf
  have hdata : (saltp ++ "$" ++ p).data = saltp.data ++ '$' :: p.data := by
    rw [String.data_append, String.data_append, List.append_assoc]
    rfl
  rw [hdata]
  rw [takeWhile_append_sentinel _ _ _ _
        (fun a ha => by simpa using hs a ha) (by decide)]
  simp

/-- C8: for a fresh username and email, `register` followed by `authenticate`
with the same email and password succeeds and returns a token whose claims
carry subject = the id of the user record that `register` persisted; this
rests on bcrypt verification succeeding on the hash of the same password. -/
theorem C8_register_authenticate_roundtrip (s : Settings) (db : UserDb)
    (input : UserRegisterInput) (salt key : String) (now : Int) (jti : String)
    (hkey : s.jwt_private_key = some key)
    (hsalt : ∀ c ∈ salt.data, c ≠ '$')
    (hu : ∀ u ∈ db, u.username ≠ input.username)
    (he : ∀ u ∈ db, u.email ≠ input.email) :
    bcrypt_checkpw input.password (bcrypt_hashpw input.password salt) = true
    ∧ ∃ user : User,
        register db input salt =
          .ok ({ status := Status.CREATED
                 message := AuthMessages.SUCCESS_REGISTER_MESSAGE
                 data := user
                 documentationLink := HTTP_STATUS_201 }, db ++ [user])
        ∧ authenticate s (db ++ [user]) ⟨input.email, input.password⟩
            now jti false =
            .ok { access_token :=
                    ⟨(generate_payload s user now jti).asdict, key,
                     s.jwt_algorithm⟩
                  type := "Bearer" }
        ∧ (generate_payload s user now jti).asdict.lookup "sub"
            = some (ClaimValue.int user.id) := by
  refine ⟨bcrypt_roundtrip _ _ hsalt, ?_⟩
  refine ⟨{ id := nextId db
            username := input.username
            email := input.email
            hashed_password := hash_password input.password salt
            is_active := true }, ?_, ?_, rfl⟩
  · have hanyu : db.any (fun v => v.username == input.username) = false := by
      rw [Bool.eq_false_iff, Ne, List.any_eq_true]
      rintro ⟨v, hv, hcontra⟩
      exact hu v hv (by simpa using hcontra)
    have hanye : db.any (fun v => v.email == input.email) = false := by
      rw [Bool.eq_false_iff, Ne, List.any_eq_true]
      rintro ⟨v, hv, hcontra⟩
      exact he v hv (by simpa using hcontra)
    unfold register create_user
    rw [hanyu, hanye]
    rfl
  · have hfil :
        (db ++ [({ id := nextId db
                   username := input.username
                   email := input.email
                   hashed_password := hash_password input.password salt
                   is_active := true } : User)]).filter
          (fun v => v.email == input.email && v.is_active) =
        [{ id := nextId db
           username := input.username
           email := input.email
           hashed_password := hash_password input.password salt
           is_active := true }] := by
      rw [List.filter_append]
      have h1 : db.filter (fun v => v.email == input.email && v.is_active)
          = [] := by
        refine List.filter_eq_nil_iff.mpr ?_
        intro v hv
        simp only [Bool.and_eq_true, beq_iff_eq, not_and]
        intro hcontra _
        exact he v hv hcontra
      rw [h1]
      simp
    unfold authenticate
    unfold get_user_by_email
    rw [hfil]
    show (if !check_password input.password
              (hash_password input.password salt) then _ else _) = _
    have hpw : check_password input.password
        (hash_password input.password salt) = true :=
      bcrypt_roundtrip _ _ hsalt
    rw [hpw]
    show grant_token s _ now jti false = _
    unfold grant_token
    rw [hkey]
    rfl

/-- Witness for C8: registering `alice` into an empty store and logging in
with the same credentials. -/
theorem C8_register_authenticate_roundtrip_witness :
    bcrypt_checkpw "pw123" (bcrypt_hashpw "pw123" "s0") = true
    ∧ ∃ user : User,
        register [] ⟨"alice", "alice@x.com", "pw123"⟩ "s0" =
          .ok ({ status := Status.CREATED
                 message := AuthMessages.SUCCESS_REGISTER_MESSAGE
                 data := user
                 documentationLink := HTTP_STATUS_201 }, [] ++ [user])
        ∧ authenticate ⟨"RS256", some "key0", "pub0", 15⟩ ([] ++ [user])
            ⟨"alice@x.com", "pw123"⟩ 0 "id-1" false =
            .ok { access_token :=
                    ⟨(generate_payload ⟨"RS256", some "key0", "pub0", 15⟩
                        user 0 "id-1").asdict, "key0", "RS256"⟩
                  type := "Bearer" }
        ∧ (generate_payload ⟨"RS256", some "key0", "pub0", 15⟩
             user 0 "id-1").asdict.lookup "sub"
            = some (ClaimValue.int user.id) :=
  C8_register_authenticate_roundtrip ⟨"RS256", some "key0", "pub0", 15⟩ []
    ⟨"alice", "alice@x.com", "pw123"⟩ "s0" "key0" 0 "id-1" rfl (by decide)
    (by simp) (by simp)

/-- C1: through the dependency with the correct `Bearer` scheme, verification
fails with the token-expired error when `now > expiry` regardless of
signature validity, fails with the token-invalid error when the signature,
issuer, audience or structural shape does not match, and succeeds returning
the claims otherwise. -/
theorem C1_verify_token_taxonomy (now : Int)
    (cred : HTTPAuthorizationCredentials) (hscheme : cred.scheme = "Bearer") :
    (cred.credentials.claims.exp < now →
      verify_token_dependency now (some cred) =
        (.error ⟨ExcClass.unauthorizedError, AuthMessages.TOKEN_EXPIRED⟩, true))
    ∧ (now ≤ cred.credentials.claims.exp →
       (cred.credentials.signatureValid && cred.credentials.structureValid
         && (cred.credentials.claims.issue == "rental_house_fastapi")
         && cred.credentials.claims.aud.contains "all") = false →
      verify_token_dependency now (some cred) =
        (.error ⟨ExcClass.unauthorizedError, AuthMessages.INVALID_TOKEN⟩, true))
    ∧ (now ≤ cred.credentials.claims.exp →
       (cred.credentials.signatureValid && cred.credentials.structureValid
         && (cred.credentials.claims.issue == "rental_house_fastapi")
         && cred.credentials.claims.aud.contains "all") = true →
      verify_token_dependency now (some cred) =
        (.ok cred.credentials.claims, true)) := by
  have hsl : (pyLower cred.scheme != pyLower TOKEN_TYPE) = false := by
    rw [hscheme]
    rfl
  refine ⟨?_, ?_, ?_⟩
  · intro hexp
    have hv : verify_token now cred.credentials = .error .tokenExpired := by
      unfold verify_token
      rw [if_pos hexp]
    simp only [verify_token_dependency, hsl, Bool.false_eq_true, if_false, hv]
  · intro hexp hbad
    have hv : verify_token now cred.credentials = .error .tokenInvalid := by
      unfold verify_token
      rw [if_neg (by omega), hbad]
      rfl
    simp only [verify_token_dependency, hsl, Bool.false_eq_true, if_false, hv]
  · intro hexp hok
    have hv : verify_token now cred.credentials = .ok cred.credentials.claims := by
      unfold verify_token
      rw [if_neg (by omega), hok]
      rfl
    simp only [verify_token_dependency, hsl, Bool.false_eq_true, if_false, hv]

/-- Witness for C1: an expired token with an invalid signature still fails
with the token-expired error. -/
theorem C1_verify_token_taxonomy_witness :
    verify_token_dependency 100
        (some ⟨"Bearer", ⟨⟨7, ["all"], 0, 0, 50, "id-1", "rental_house_fastapi"⟩,
               false, true⟩⟩) =
      (.error ⟨ExcClass.unauthorizedError, AuthMessages.TOKEN_EXPIRED⟩, true) :=
  (C1_verify_token_taxonomy 100
    ⟨"Bearer", ⟨⟨7, ["all"], 0, 0, 50, "id-1", "rental_house_fastapi"⟩,
     false, true⟩⟩ rfl).1 (by decide)

/-- C9 counterexample: the scheme string `BEARER` is other than the
configured scheme name `Bearer`, yet the dependency accepts it (the scheme
comparison is case-insensitive) and invokes the verifier — the claim as
stated fails at this input. -/
theorem C9_counterexample :
    "BEARER" ≠ TOKEN_TYPE
    ∧ verify_token_dependency 100
        (some ⟨"BEARER",
               ⟨⟨7, ["all"], 0, 0, 200, "id-1", "rental_house_fastapi"⟩,
                true, true⟩⟩) =
      (.ok ⟨7, ["all"], 0, 0, 200, "id-1", "rental_house_fastapi"⟩, true) := by
  exact ⟨by decide, rfl⟩

/-- C9 (amended): a request whose authorization scheme differs
case-insensitively from the bearer scheme name fails with the
invalid-auth-scheme error before any token verification is attempted (the
verifier is never invoked); a scheme equal to `Bearer` up to ASCII case is
accepted. -/
theorem C9_scheme_checked_before_verification (now : Int)
    (cred : HTTPAuthorizationCredentials)
    (h : pyLower cred.scheme ≠ pyLower TOKEN_TYPE) :
    verify_token_dependency now (some cred) =
      (.error ⟨ExcClass.unauthorizedError,
               AuthMessages.formatTokenType AuthMessages.INVALID_AUTH_SCHEME
                 TOKEN_TYPE⟩, false)
    ∧ AuthMessages.formatTokenType AuthMessages.INVALID_AUTH_SCHEME TOKEN_TYPE
        = "Authentication scheme must be Bearer" := by
  constructor
  · have hsl : (pyLower cred.scheme != pyLower TOKEN_TYPE) = true := by
      simpa using h
    simp only [verify_token_dependency, hsl, if_true]
  · decide

/-- Witness for the amended C9: the `Basic` scheme is rejected with the
invalid-auth-scheme error without the verifier running. -/
theorem C9_scheme_checked_before_verification_witness :
    verify_token_dependency 100
        (some ⟨"Basic",
               ⟨⟨7, ["all"], 0, 0, 200, "id-1", "rental_house_fastapi"⟩,
                true, true⟩⟩) =
      (.error ⟨ExcClass.unauthorizedError,
               AuthMessages.formatTokenType AuthMessages.INVALID_AUTH_SCHEME
                 TOKEN_TYPE⟩, false) :=
  (C9_scheme_checked_before_verification 100
    ⟨"Basic", ⟨⟨7, ["all"], 0, 0, 200, "id-1", "rental_house_fastapi"⟩,
     true, true⟩⟩ (by decide)).1

end ThreatIntel
